import Mathlib

/-!
Shallow embedding of the client-side flight physics of the fly.bird.com
repository (file `src/unnamed/part_000`, the client `main.js`: the
`movement_data` socket handler at lines 980-1099, the `gameState` literal at
lines 788-817, the keydown pause toggle at lines 1115-1145 and the `animate`
loop at lines 1148-1170; the bird mesh updater `updateBird` of `bird.js`,
lines 572-660, reads the bird state and mutates only the rendered mesh).

Numeric values are modelled as exact rationals (`ℚ`); the JS source uses
IEEE doubles, but every constant in the handler is a short decimal literal
and every claim below concerns order/algebraic structure that is preserved
by the exact-arithmetic model.  The single real-valued operation,
`Math.pow(turnAngle / 60, 1.5)` in the turn branch, is modelled exactly over
`ℝ` by `turnPower` below; inside the `ℚ`-level step it is abstracted as a
function parameter `tp : ℚ → ℚ` (no claim about `ℚ`-level states depends on
its value, since the `turn` field feeds back into no other field).
-/

namespace FlyBird

/-- The `commands.state` string as far as the handler discriminates it:
`'glide'`, `'dive'`, `'gain_height'`, and anything else (the server's
`'none'`, or any other string) which every `===` comparison treats alike. -/
inductive CmdState
  | glide
  | dive
  | gainHeight
  | other
  deriving DecidableEq, Repr

/-- The `commands.turn` string: `'left'` or `'right'`. -/
inductive TurnDir
  | left
  | right
  deriving DecidableEq, Repr

/-- The duck-typed `commands` object of a `movement_data` event.  Every field
is optional (`none` models an absent key).  `flap` may be present and
`false`; `'flap' in commands` is presence (`isSome`), while truthiness of
`commands.flap` is `= some true`. -/
structure Commands where
  state : Option CmdState := none
  flap : Option Bool := none
  flap_intensity : Option ℚ := none
  dive_intensity : Option ℚ := none
  height_gain : Option ℚ := none
  turn : Option TurnDir := none
  turn_angle : Option ℚ := none
  deriving DecidableEq, Repr

/-- The server-computed `bird_state` object (lines 1080-1084): the handler
reads exactly its `speed`, `height` and `turn` fields. -/
structure ServerBird where
  speed : ℚ
  height : ℚ
  turn : ℚ
  deriving DecidableEq, Repr

/-- `gameState.birdState` (lines 793-800). -/
structure BirdState where
  speed : ℚ
  height : ℚ
  turn : ℚ
  wingFlap : Bool
  wingFlapSpeed : ℚ
  verticalMomentum : ℚ
  deriving DecidableEq, Repr

/-- `gameState.physics` (lines 806-812): the five tunable constants. -/
structure Physics where
  gravity : ℚ
  drag : ℚ
  liftFactor : ℚ
  flapStrength : ℚ
  maxSpeed : ℚ
  deriving DecidableEq, Repr

/-- The literal configuration of lines 806-812:
gravity 0.02, drag 0.98, liftFactor 0.01, flapStrength 0.03, maxSpeed 0.8. -/
def defaultPhysics : Physics :=
  { gravity := 1/50, drag := 49/50, liftFactor := 1/100,
    flapStrength := 3/100, maxSpeed := 4/5 }

/-- The fields of the top-level `gameState` the claims are about: `started`,
`paused`, `lastTime` and `birdState` (lines 788-817).  Sound, debug and DOM
fields are omitted: no line of the handler writes a `birdState` field
through them. -/
structure GameState where
  started : Bool
  paused : Bool
  lastTime : ℚ
  birdState : BirdState
  deriving DecidableEq, Repr

/-- The initial `birdState` literal (lines 793-800): speed 0, height 5,
turn 0, wingFlap false, wingFlapSpeed 0, verticalMomentum 0. -/
def initialBirdState : BirdState :=
  { speed := 0, height := 5, turn := 0, wingFlap := false,
    wingFlapSpeed := 0, verticalMomentum := 0 }

/-- The initial `gameState`: started false, paused false, lastTime 0. -/
def initialGameState : GameState :=
  { started := false, paused := false, lastTime := 0,
    birdState := initialBirdState }

/-- JS `x || d` on an optional numeric field: an absent key or a present `0`
(both falsy) yield the default `d`; any other present value is kept. -/
def jsOr (x : Option ℚ) (d : ℚ) : ℚ :=
  match x with
  | none => d
  | some v => if v = 0 then d else v

/-- The gravity guard of line 1001: `!commands.flap && commands.state !==
'glide'`.  `commands.flap` is truthy exactly when present and `true`. -/
def gravityApplies (c : Commands) : Prop :=
  ¬ c.flap = some true ∧ ¬ c.state = some CmdState.glide

instance (c : Commands) : Decidable (gravityApplies c) :=
  inferInstanceAs (Decidable (_ ∧ _))

/-- Lines 999-1018, the client-side physics block (run when the game has
started and no server `bird_state` is present): gravity if not flapping or
gliding, integrate momentum into height, ground collision (clamp height to
0, zero the momentum, 0.95 ground friction on speed), then drag on speed
and 0.95 momentum decay. -/
def clientPhysics (phy : Physics) (c : Commands) (b : BirdState) : BirdState :=
  let vm := if gravityApplies c then b.verticalMomentum - phy.gravity
            else b.verticalMomentum
  let h := b.height + vm
  let b :=
    if h ≤ 0 then
      { b with height := 0, verticalMomentum := 0, speed := b.speed * (95/100) }
    else
      { b with height := h, verticalMomentum := vm }
  { b with speed := b.speed * phy.drag,
           verticalMomentum := b.verticalMomentum * (95/100) }

/-- Lines 1021-1060, the `commands.state` branch chain.  `hasServer` is the
truthiness of `bird_state`; the inner physics of each branch runs only
without it.  Glide: clamp momentum at -0.01 from below and add
`liftFactor * speed` to the height.  Dive: `speed += 0.03 * intensity`,
`verticalMomentum -= 0.01 * intensity` with `intensity = dive_intensity ||
0.5`.  Gain height: wingFlap true, `wingFlapSpeed = 0.2 + (height_gain ||
0) * 0.3`, and with `gain = height_gain || 0.5` add `0.03 * gain` momentum
and floor `speed - 0.01 * gain` at 0.05. -/
def stateBranch (phy : Physics) (c : Commands) (hasServer : Bool)
    (b : BirdState) : BirdState :=
  if c.state = some CmdState.glide then
    let b := { b with wingFlap := false }
    if !hasServer then
      let lift := phy.liftFactor * b.speed
      let b := { b with verticalMomentum := max (-(1/100)) b.verticalMomentum }
      { b with height := b.height + lift }
    else b
  else if c.state = some CmdState.dive then
    let b := { b with wingFlap := false }
    if !hasServer then
      let intensity := jsOr c.dive_intensity (1/2)
      { b with speed := b.speed + (3/100) * intensity,
               verticalMomentum := b.verticalMomentum - (1/100) * intensity }
    else b
  else if c.state = some CmdState.gainHeight then
    let b := { b with wingFlap := true,
                      wingFlapSpeed := 1/5 + jsOr c.height_gain 0 * (3/10) }
    if !hasServer then
      let gain := jsOr c.height_gain (1/2)
      { b with verticalMomentum := b.verticalMomentum + (3/100) * gain,
               speed := max (b.speed - (1/100) * gain) (1/20) }
    else b
  else b

/-- Lines 1063-1077, the `'flap' in commands` block: when the key is
present, copy the flag into `wingFlap` and `flap_intensity || 0.1` into
`wingFlapSpeed`; additionally, without a server state and with a truthy
flag, add `flapStrength * intensity` momentum and `0.01 * intensity` speed
with `intensity = flap_intensity || 0.5`. -/
def flapBlock (phy : Physics) (c : Commands) (hasServer : Bool)
    (b : BirdState) : BirdState :=
  match c.flap with
  | none => b
  | some f =>
    let b := { b with wingFlap := f,
                      wingFlapSpeed := jsOr c.flap_intensity (1/10) }
    if !hasServer ∧ f = true then
      let intensity := jsOr c.flap_intensity (1/2)
      { b with verticalMomentum := b.verticalMomentum + phy.flapStrength * intensity,
               speed := b.speed + (1/100) * intensity }
    else b

/-- Lines 1080-1092: with a server `bird_state`, overwrite speed, height and
turn from it; otherwise, with a truthy `commands.turn`, set `turn` to
`±(Math.pow((turn_angle || 0) / 60, 1.5) * 0.05)` (the real-valued power is
the abstracted `tp`; negated for `'left'`); otherwise decay `turn` by 0.9. -/
def turnBlock (tp : ℚ → ℚ) (c : Commands) (srv : Option ServerBird)
    (b : BirdState) : BirdState :=
  match srv with
  | some s => { b with speed := s.speed, height := s.height, turn := s.turn }
  | none =>
    if c.turn.isSome then
      let turnAngle := jsOr c.turn_angle 0
      let turnPow := tp turnAngle
      { b with turn := if c.turn = some TurnDir.left then -turnPow else turnPow }
    else
      { b with turn := b.turn * (9/10) }

/-- Line 1095, the final unconditional speed clamp:
`speed = Math.min(Math.max(speed, 0), maxSpeed)`. -/
def clampSpeed (m : ℚ) (b : BirdState) : BirdState :=
  { b with speed := min (max b.speed 0) m }

/-- The body of the `movement_data` handler for a present `commands` object
(lines 999-1095), in source order: client physics block (only when started
and without server state), state branch chain, flap block, server-state /
turn block, final speed clamp. -/
def stepCore (tp : ℚ → ℚ) (phy : Physics) (gs : GameState) (c : Commands)
    (srv : Option ServerBird) : GameState :=
  let b := gs.birdState
  let b := if srv = none ∧ gs.started = true then clientPhysics phy c b else b
  let b := stateBranch phy c srv.isSome b
  let b := flapBlock phy c srv.isSome b
  let b := turnBlock tp c srv b
  let b := clampSpeed phy.maxSpeed b
  { gs with birdState := b }

/-- `Object.keys(commands).length > 0`: at least one key present. -/
def commandsNonEmpty (c : Commands) : Bool :=
  c.state.isSome || c.flap.isSome || c.flap_intensity.isSome ||
  c.dive_intensity.isSome || c.height_gain.isSome || c.turn.isSome ||
  c.turn_angle.isSome

/-- The full `movement_data` handler (lines 980-1099) including its failure
behaviour.  First the start guard (lines 988-997): `!started && commands &&
Object.keys(commands).length > 0` sets `started`.  When `commands` is
absent, the first unconditional read of a `commands` property throws a
`TypeError` — at `commands.flap` (line 1001) when the physics block is
entered, else at `commands.state` (line 1022) — in either case before any
write to `birdState`; `.error` carries the global state as it is at the
throw.  With `commands` present the handler runs to completion
(`stepCore`). -/
def movementData (tp : ℚ → ℚ) (phy : Physics) (gs : GameState)
    (cmd : Option Commands) (srv : Option ServerBird) :
    Except GameState GameState :=
  let gs :=
    if gs.started = false ∧
        (match cmd with | some c => commandsNonEmpty c | none => false) = true
    then { gs with started := true } else gs
  match cmd with
  | none => Except.error gs
  | some c => Except.ok (stepCore tp phy gs c srv)

/-- The top-level events the claims quantify over. -/
inductive GEvent
  | movement (cmd : Option Commands) (srv : Option ServerBird)
  | keyP
  | animateTick (timestamp : ℚ)

/-- One event of the client event loop.  `movement` runs the socket handler
(a thrown `TypeError` propagates out of the socket callback, leaving the
global state as mutated so far).  `keyP` is the pause toggle (lines
1117-1120).  `animateTick` is one `animate(timestamp)` frame (lines
1148-1170): it stores `lastTime := timestamp` and, when started and not
paused, calls `updateBird`/`updateWorld` — which read `birdState` and
mutate only the rendered mesh (`bird.position`, `bird.rotation`,
`bird.userData`; `bird.js` lines 572-660), never a `birdState` field. -/
def processEvent (tp : ℚ → ℚ) (phy : Physics) (gs : GameState) :
    GEvent → GameState
  | GEvent.movement cmd srv =>
    match movementData tp phy gs cmd srv with
    | Except.ok g => g
    | Except.error g => g
  | GEvent.keyP => { gs with paused := !gs.paused }
  | GEvent.animateTick ts => { gs with lastTime := ts }

/-- Trajectory of states reached after each event of a list. -/
def runTraj (tp : ℚ → ℚ) (phy : Physics) (gs : GameState) :
    List GEvent → List GameState
  | [] => []
  | e :: es =>
    let g := processEvent tp phy gs e
    g :: runTraj tp phy g es

/-- A turn-power stand-in for concrete runs whose commands carry no turn
key (the turn branch is then never taken, so the value is irrelevant). -/
def tpZero : ℚ → ℚ := fun _ => 0

/-- A sustained idle command: the server's `{state: 'none'}` object — a
nonempty commands object with no glide/dive/gain state, no flap key and no
turn key. -/
def cIdle : Commands := { state := some CmdState.other }

/-- One `movement_data` event carrying the idle command and no server
`bird_state`, under the literal configuration. -/
def idleEventStep (gs : GameState) : GameState :=
  processEvent tpZero defaultPhysics gs (GEvent.movement (some cIdle) none)

/-- The state after `n` idle events from the initial game state. -/
def idleRun (n : ℕ) : GameState :=
  idleEventStep^[n] initialGameState

/-- A sustained glide command: `{state: 'glide'}`. -/
def cGlide : Commands := { state := some CmdState.glide }

/-- A sustained dive command with server-default intensity:
`{state: 'dive'}` (the handler then uses `dive_intensity || 0.5`). -/
def cDive : Commands := { state := some CmdState.dive }

/-- A gain-height command without a `flap` key: `{state: 'gain_height'}`. -/
def cGain : Commands := { state := some CmdState.gainHeight }

/-- One `movement_data` event carrying the glide command and no server
`bird_state`, under the literal configuration. -/
def glideEventStep (gs : GameState) : GameState :=
  processEvent tpZero defaultPhysics gs (GEvent.movement (some cGlide) none)

/-- The initial game state with the start guard already passed. -/
def gsStarted : GameState := { initialGameState with started := true }

/-- A started, paused game at the initial bird state. -/
def gsPaused : GameState :=
  { started := true, paused := true, lastTime := 0,
    birdState := initialBirdState }

/-- A started game whose bird still has upward momentum 0.1. -/
def gsClimbing : GameState :=
  { started := true, paused := false, lastTime := 0,
    birdState := { speed := 1/4, height := 5, turn := 0, wingFlap := false,
                   wingFlapSpeed := 0, verticalMomentum := 1/10 } }

/-- A started game gliding at speed 0.5. -/
def gsFast : GameState :=
  { started := true, paused := false, lastTime := 0,
    birdState := { initialBirdState with speed := 1/2 } }

/-- The literal configuration with `maxSpeed` corrupted to -1. -/
def phyBad : Physics := { defaultPhysics with maxSpeed := -1 }

/-- The exact turn-power map of line 1089:
`Math.pow(turnAngle / 60, 1.5) * 0.05` over the reals. -/
noncomputable def turnPower (turnAngle : ℝ) : ℝ :=
  (turnAngle / 60) ^ (1.5 : ℝ) * 0.05

/-- The signed client turn value of lines 1087-1091: negative of the power
for a `'left'` command, the power itself for `'right'`. -/
noncomputable def clientTurnValue (d : TurnDir) (turnAngle : ℝ) : ℝ :=
  match d with
  | TurnDir.left => -turnPower turnAngle
  | TurnDir.right => turnPower turnAngle

/-! Helper lemmas shared by the claim theorems. -/

/-- The handler ends in the unconditional clamp of line 1095: the final
speed is `min (max x 0) maxSpeed` for some intermediate value `x`. -/
theorem movement_speed_eq_clamp (tp : ℚ → ℚ) (phy : Physics) (gs : GameState)
    (c : Commands) (srv : Option ServerBird) :
    ∃ x : ℚ, (processEvent tp phy gs (GEvent.movement (some c) srv)).birdState.speed
      = min (max x 0) phy.maxSpeed :=
  ⟨_, rfl⟩

/-- The physics block of lines 999-1018 never leaves a negative height:
the ground branch clamps to 0, the other branch is guarded by `0 <
height + momentum`. -/
theorem clientPhysics_height_nonneg (phy : Physics) (c : Commands) (b : BirdState) :
    0 ≤ (clientPhysics phy c b).height := by
  unfold clientPhysics
  dsimp only
  split_ifs with hg h1 h2
  · simp
  · simpa using (lt_of_not_le h1).le
  · simp
  · simpa using (lt_of_not_le h2).le

/-- Under the idle command the branch chain, flap block, turn block and
speed clamp leave `height` unchanged. -/
theorem idle_blocks_height (phy : Physics) (hs : Bool) (b : BirdState) :
    (turnBlock tpZero cIdle none (flapBlock phy cIdle hs (stateBranch phy cIdle hs b))).height
      = b.height := by
  simp [turnBlock, flapBlock, stateBranch, cIdle]

/-- One idle `movement_data` event never produces a negative height,
whatever game state it hits. -/
theorem idleEventStep_height_nonneg (gs : GameState) :
    0 ≤ (idleEventStep gs).birdState.height := by
  unfold idleEventStep processEvent movementData stepCore
  dsimp only
  split_ifs with h1 h2 h3
  · simp [clampSpeed, idle_blocks_height, clientPhysics_height_nonneg]
  · exact absurd ⟨rfl, rfl⟩ h2
  · simp [clampSpeed, idle_blocks_height, clientPhysics_height_nonneg]
  · rcases Bool.eq_false_or_eq_true gs.started with hb | hb
    · exact absurd ⟨rfl, hb⟩ h3
    · exact absurd ⟨hb, by decide⟩ h1

/-! Claim theorems. -/

/-- C1: every completed `movement_data` event — from any prior bird state,
with or without a server `bird_state` — ends with `0 ≤ speed ≤ maxSpeed`
for the configured `maxSpeed = 0.8`, because the clamp of line 1095 runs
unconditionally last.  Quantifying over the pre-state covers every
position in every event sequence. -/
theorem speed_bounds_after_event (tp : ℚ → ℚ) (gs : GameState) (c : Commands)
    (srv : Option ServerBird) :
    0 ≤ (processEvent tp defaultPhysics gs (GEvent.movement (some c) srv)).birdState.speed ∧
    (processEvent tp defaultPhysics gs (GEvent.movement (some c) srv)).birdState.speed
      ≤ defaultPhysics.maxSpeed := by
  obtain ⟨x, hx⟩ := movement_speed_eq_clamp tp defaultPhysics gs c srv
  rw [hx]
  constructor
  · exact le_min (le_max_right _ _) (by norm_num [defaultPhysics])
  · exact min_le_right _ _

set_option maxRecDepth 8000 in
/-- C4: from the initial state (height 5, zero speed and momentum), a
sustained idle command grounds the bird — after 27 events `height = 0` and
`verticalMomentum = 0` — and no intermediate state has negative height. -/
theorem idle_run_grounds :
    (∃ n : ℕ, (idleRun n).birdState.height = 0 ∧
      (idleRun n).birdState.verticalMomentum = 0) ∧
    ∀ k : ℕ, 0 ≤ (idleRun k).birdState.height := by
  constructor
  · exact ⟨27, by decide!⟩
  · intro k
    induction k with
    | zero => norm_num [idleRun, initialGameState, initialBirdState]
    | succ n ih =>
      rw [idleRun, Function.iterate_succ_apply']
      exact idleEventStep_height_nonneg _

/-- C7: the pipeline is deterministic — two runs from equal initial game
states over equal event lists produce equal state trajectories; the step
is a pure function of `(state, commands, bird_state)` with no randomness
or clock input. -/
theorem pipeline_deterministic (tp : ℚ → ℚ) (phy : Physics) (s1 s2 : GameState)
    (l1 l2 : List GEvent) (hs : s1 = s2) (hl : l1 = l2) :
    runTraj tp phy s1 l1 = runTraj tp phy s2 l2 := by
  subst hs; subst hl; rfl

/-- C7 witness: the determinism theorem applied to a concrete replayed
run of one idle event. -/
theorem pipeline_deterministic_witness :
    runTraj tpZero defaultPhysics initialGameState [GEvent.movement (some cIdle) none]
      = runTraj tpZero defaultPhysics initialGameState [GEvent.movement (some cIdle) none] :=
  pipeline_deterministic tpZero defaultPhysics initialGameState initialGameState
    [GEvent.movement (some cIdle) none] [GEvent.movement (some cIdle) none] rfl rfl

/-- C10 amended: a `movement_data` event whose `data.commands` is absent
throws at the first unconditional property read (`commands.flap`, line
1001, when started without a server state; `commands.state`, line 1022,
otherwise) — and in either case before any write, so the game state at
the throw is exactly the pre-event state: the failure is atomic, not a
partial update. -/
theorem missing_commands_throws_atomically (tp : ℚ → ℚ) (phy : Physics)
    (gs : GameState) (srv : Option ServerBird) :
    movementData tp phy gs none srv = Except.error gs := by
  simp [movementData]

/-- C10 counterexample: for a started game with no server state and upward
momentum 0.1, the handler with absent `commands` errors with the state
unchanged (`verticalMomentum` still exactly 0.1) — had gravity, drag and
momentum decay already been applied, as the claim asserts, the momentum at
the throw would be `(0.1 - 0.02) * 0.95 = 0.076`. -/
theorem missing_commands_counterexample :
    movementData tpZero defaultPhysics gsClimbing none none = Except.error gsClimbing ∧
    gsClimbing.birdState.verticalMomentum = 1/10 ∧
    (gsClimbing.birdState.verticalMomentum - 1/50) * (19/20)
      ≠ gsClimbing.birdState.verticalMomentum := by
  refine ⟨by simp [movementData], by decide!, by decide!⟩

set_option maxRecDepth 4000 in
/-- C2 counterexample: the handler receives no elapsed-time input at all,
so over one fixed wall-clock interval a client that delivers one idle
event leaves height 4.98 while a client at twice the event rate (two
events for the same interval) leaves height 4.941: the state change is
governed by the number of events, not by `dt`. -/
theorem fixed_timestep_counterexample :
    (idleRun 1).birdState.height = 249/50 ∧
    (idleRun 2).birdState.height = 4941/1000 ∧
    (idleRun 2).birdState.height ≠ (idleRun 1).birdState.height := by
  decide!

/-- C2 amended: every rate constant is a fixed per-event constant, not
`dt`-scaled — one airborne idle event always multiplies momentum by
exactly 19/20 after subtracting gravity 1/50, multiplies speed by exactly
49/50, adds the momentum to the height once, and decays the turn by
9/10, independent of any elapsed time. -/
theorem per_event_constants (gs : GameState) (h1 : gs.started = true)
    (h2 : 0 < gs.birdState.height + (gs.birdState.verticalMomentum - 1/50))
    (h3 : 0 ≤ gs.birdState.speed) (h4 : gs.birdState.speed ≤ 4/5) :
    (idleEventStep gs).birdState.verticalMomentum
        = (gs.birdState.verticalMomentum - 1/50) * (19/20) ∧
    (idleEventStep gs).birdState.height
        = gs.birdState.height + (gs.birdState.verticalMomentum - 1/50) ∧
    (idleEventStep gs).birdState.speed = gs.birdState.speed * (49/50) ∧
    (idleEventStep gs).birdState.turn = gs.birdState.turn * (9/10) := by
  have e1 : idleEventStep gs = stepCore tpZero defaultPhysics gs cIdle none := by
    unfold idleEventStep processEvent movementData
    simp [h1]
  have hne1 : ¬ (CmdState.other = CmdState.glide) := by decide
  have hne2 : ¬ (CmdState.other = CmdState.dive) := by decide
  have hne3 : ¬ (CmdState.other = CmdState.gainHeight) := by decide
  rw [e1]
  unfold stepCore
  dsimp only
  rw [if_pos ⟨rfl, h1⟩]
  unfold clientPhysics
  simp only [defaultPhysics]
  rw [if_pos (by decide : gravityApplies cIdle), if_neg (not_le.mpr h2)]
  simp [stateBranch, flapBlock, turnBlock, clampSpeed, cIdle, jsOr, hne1, hne2, hne3,
    max_eq_left (mul_nonneg h3 (by norm_num : (0:ℚ) ≤ 49/50)),
    min_eq_left (by linarith : gs.birdState.speed * (49/50) ≤ 4/5)]
  norm_num

set_option maxRecDepth 4000 in
/-- C2 witness: the per-event formulas at a concrete airborne state. -/
theorem per_event_constants_witness :
    (idleEventStep gsClimbing).birdState.verticalMomentum
        = (gsClimbing.birdState.verticalMomentum - 1/50) * (19/20) ∧
    (idleEventStep gsClimbing).birdState.height
        = gsClimbing.birdState.height + (gsClimbing.birdState.verticalMomentum - 1/50) ∧
    (idleEventStep gsClimbing).birdState.speed = gsClimbing.birdState.speed * (49/50) ∧
    (idleEventStep gsClimbing).birdState.turn = gsClimbing.birdState.turn * (9/10) :=
  per_event_constants gsClimbing (by decide!) (by decide!) (by decide!) (by decide!)

set_option maxRecDepth 4000 in
/-- C3 counterexample: a `gain_height` command with no `flap` key, on a
started airborne bird with zero momentum, ends the event with
`verticalMomentum = -1/250 < 0` and `height = 4.98`: the constant
downward acceleration was applied.  Had gravity been withheld for
`GainHeight` as the claim states, the momentum would be
`0 * 0.95 + 0.03 * 0.5 = 3/200 > 0` and the height would remain 5. -/
theorem gain_height_gravity_counterexample :
    (processEvent tpZero defaultPhysics gsStarted
        (GEvent.movement (some cGain) none)).birdState.verticalMomentum = -(1/250) ∧
    (processEvent tpZero defaultPhysics gsStarted
        (GEvent.movement (some cGain) none)).birdState.verticalMomentum < 0 ∧
    (processEvent tpZero defaultPhysics gsStarted
        (GEvent.movement (some cGain) none)).birdState.height = 249/50 := by
  decide!

/-- C3 amended: in the client physics block, gravity is subtracted from
the momentum exactly when the `flap` flag is not truthy and the state is
not `'glide'` — so it is applied for Idle, Dive and for a GainHeight
command without a flap flag, and withheld for Glide and for any command
with `flap: true`. -/
theorem gravity_applied_iff (phy : Physics) (c : Commands) (b : BirdState)
    (hg : 0 ≤ phy.gravity)
    (hair : 0 < b.height + (b.verticalMomentum - phy.gravity)) :
    (clientPhysics phy c b).verticalMomentum
      = (b.verticalMomentum - (if gravityApplies c then phy.gravity else 0)) * (95/100) ∧
    (gravityApplies c ↔ (¬ c.flap = some true ∧ ¬ c.state = some CmdState.glide)) := by
  refine ⟨?_, Iff.rfl⟩
  unfold clientPhysics
  dsimp only
  by_cases hga : gravityApplies c
  · simp only [if_pos hga]
    rw [if_neg (not_le.mpr hair)]
  · simp only [if_neg hga]
    rw [if_neg (not_le.mpr (by linarith))]
    norm_num

/-- C3 witness: the gravity characterization at the no-flap gain-height
command on a concrete airborne state. -/
theorem gravity_applied_iff_witness :
    (clientPhysics defaultPhysics cGain gsClimbing.birdState).verticalMomentum
      = (gsClimbing.birdState.verticalMomentum
          - (if gravityApplies cGain then defaultPhysics.gravity else 0)) * (95/100) ∧
    (gravityApplies cGain ↔
      (¬ cGain.flap = some true ∧ ¬ cGain.state = some CmdState.glide)) :=
  gravity_applied_iff defaultPhysics cGain gsClimbing.birdState (by decide!) (by decide!)

set_option maxRecDepth 4000 in
/-- C5 counterexample: two started states differing only in speed (0
versus 0.5) end a glide event with exactly equal `verticalMomentum` — the
speed-proportional lift `0.01 * speed` is added to `height`, not to the
momentum, so no momentum proportional to speed is added (the claim would
require the faster bird's momentum to be strictly larger). -/
theorem glide_no_momentum_from_speed :
    gsStarted.birdState.speed < gsFast.birdState.speed ∧
    (glideEventStep gsFast).birdState.verticalMomentum
      = (glideEventStep gsStarted).birdState.verticalMomentum ∧
    (glideEventStep gsFast).birdState.height
      ≠ (glideEventStep gsStarted).birdState.height := by
  decide!

/-- C5 amended: a glide event on a started airborne bird clamps the
momentum at the glide bound (`verticalMomentum' = max (-0.01) (0.95 *
verticalMomentum) ≥ -0.01`, no freefall while gliding), and the
speed-proportional lift `liftFactor * speed` is added to the height. -/
theorem glide_clamp_and_lift (gs : GameState) (h1 : gs.started = true)
    (h2 : 0 < gs.birdState.height + gs.birdState.verticalMomentum) :
    (glideEventStep gs).birdState.verticalMomentum
        = max (-(1/100)) (gs.birdState.verticalMomentum * (95/100)) ∧
    -(1/100) ≤ (glideEventStep gs).birdState.verticalMomentum ∧
    (glideEventStep gs).birdState.height
        = gs.birdState.height + gs.birdState.verticalMomentum
          + 1/100 * (gs.birdState.speed * (49/50)) := by
  have e1 : glideEventStep gs = stepCore tpZero defaultPhysics gs cGlide none := by
    unfold glideEventStep processEvent movementData
    simp [h1]
  rw [e1]
  unfold stepCore
  dsimp only
  rw [if_pos ⟨rfl, h1⟩]
  unfold clientPhysics
  simp only [defaultPhysics]
  rw [if_neg (by decide : ¬ gravityApplies cGlide), if_neg (not_le.mpr h2)]
  simp [stateBranch, flapBlock, turnBlock, clampSpeed, cGlide, jsOr]

/-- C5 witness: the glide clamp and lift at the concrete gliding state. -/
theorem glide_clamp_and_lift_witness :
    (glideEventStep gsFast).birdState.verticalMomentum
        = max (-(1/100)) (gsFast.birdState.verticalMomentum * (95/100)) ∧
    -(1/100) ≤ (glideEventStep gsFast).birdState.verticalMomentum ∧
    (glideEventStep gsFast).birdState.height
        = gsFast.birdState.height + gsFast.birdState.verticalMomentum
          + 1/100 * (gsFast.birdState.speed * (49/50)) :=
  glide_clamp_and_lift gsFast (by decide!) (by decide!)

set_option maxRecDepth 4000 in
/-- C6 counterexample: with the game paused, one `movement_data` event (a
dive command, no server state) changes the bird state — the handler never
consults `gameState.paused`; the pause flag is still set afterwards, so
the state preserved for resume is the mutated one, not the state at the
moment of pausing. -/
theorem paused_movement_mutates :
    gsPaused.paused = true ∧
    (processEvent tpZero defaultPhysics gsPaused
        (GEvent.movement (some cDive) none)).birdState ≠ gsPaused.birdState ∧
    (processEvent tpZero defaultPhysics gsPaused
        (GEvent.movement (some cDive) none)).paused = true := by
  decide!

/-- C6 amended: while paused, the render-loop ticks indeed mutate no bird
state field (the `animate` frame only stores the timestamp and skips
`updateBird`, which in any case never writes `birdState`); the part of the
claim that fails is only the `movement_data` events, which keep mutating
the state during the pause. -/
theorem paused_tick_preserves_birdState (tp : ℚ → ℚ) (phy : Physics)
    (gs : GameState) (ts : ℚ) (h : gs.paused = true) :
    (processEvent tp phy gs (GEvent.animateTick ts)).birdState = gs.birdState ∧
    (processEvent tp phy gs (GEvent.animateTick ts)).paused = true :=
  ⟨rfl, h⟩

/-- C6 witness: the tick-preservation at the concrete paused state. -/
theorem paused_tick_preserves_birdState_witness :
    (processEvent tpZero defaultPhysics gsPaused (GEvent.animateTick 1)).birdState
        = gsPaused.birdState ∧
    (processEvent tpZero defaultPhysics gsPaused (GEvent.animateTick 1)).paused = true :=
  paused_tick_preserves_birdState tpZero defaultPhysics gsPaused 1 rfl

set_option maxRecDepth 4000 in
/-- C9 counterexample: with `maxSpeed` corrupted to -1 nothing rejects the
configuration — the very first idle event still executes the physics
update (the state changes) and the final clamp sets `speed = -1 < 0`:
silently wrong physics instead of an initialization failure. -/
theorem invalid_config_counterexample :
    phyBad.maxSpeed < 0 ∧
    (processEvent tpZero phyBad gsStarted
        (GEvent.movement (some cIdle) none)).birdState ≠ gsStarted.birdState ∧
    (processEvent tpZero phyBad gsStarted
        (GEvent.movement (some cIdle) none)).birdState.speed = -1 := by
  decide!

/-- C9 amended: no configuration validation exists anywhere — under any
physics record with negative `maxSpeed`, every `movement_data` event still
executes and its final clamp yields `speed = maxSpeed < 0`. -/
theorem invalid_maxSpeed_executes_silently (tp : ℚ → ℚ) (phy : Physics)
    (gs : GameState) (c : Commands) (srv : Option ServerBird)
    (h : phy.maxSpeed < 0) :
    (processEvent tp phy gs (GEvent.movement (some c) srv)).birdState.speed
      = phy.maxSpeed := by
  obtain ⟨x, hx⟩ := movement_speed_eq_clamp tp phy gs c srv
  rw [hx, min_eq_right (le_trans h.le (le_max_right x 0))]

/-- C9 witness: the silent negative clamp at the corrupted configuration. -/
theorem invalid_maxSpeed_executes_silently_witness :
    (processEvent tpZero phyBad gsStarted
        (GEvent.movement (some cIdle) none)).birdState.speed = phyBad.maxSpeed :=
  invalid_maxSpeed_executes_silently tpZero phyBad gsStarted cIdle none (by decide!)

/-- The turn power is positive on positive angles. -/
theorem turnPower_pos {a : ℝ} (ha : 0 < a) : 0 < turnPower a := by
  unfold turnPower
  have h1 : (0:ℝ) < a / 60 := by positivity
  have h2 := Real.rpow_pos_of_pos h1 (1.5 : ℝ)
  positivity

/-- The turn power is strictly increasing on positive angles. -/
theorem turnPower_strictMonoOn {a b : ℝ} (ha : 0 < a) (hab : a < b) :
    turnPower a < turnPower b := by
  unfold turnPower
  have h1 : (0:ℝ) ≤ a / 60 := by positivity
  have h2 : a / 60 < b / 60 := by linarith
  have h3 := Real.rpow_lt_rpow h1 h2 (by norm_num : (0:ℝ) < 1.5)
  have h4 : (0:ℝ) < 0.05 := by norm_num
  exact mul_lt_mul_of_pos_right h3 h4

/-- The exponent 1.5 exceeds 1: the map is strictly superlinear, doubling
the angle more than doubles the power. -/
theorem turnPower_superlinear {a : ℝ} (ha : 0 < a) :
    2 * turnPower a < turnPower (2 * a) := by
  unfold turnPower
  have h60 : (2 * a) / 60 = 2 * (a / 60) := by ring
  rw [h60, Real.mul_rpow (by norm_num : (0:ℝ) ≤ 2) (by positivity)]
  have h2 : (2:ℝ) ^ (1:ℝ) < 2 ^ (1.5:ℝ) :=
    (Real.rpow_lt_rpow_left_iff (by norm_num : (1:ℝ) < 2)).mpr (by norm_num)
  rw [Real.rpow_one] at h2
  have hp : 0 < (a / 60) ^ (1.5:ℝ) := Real.rpow_pos_of_pos (by positivity) _
  nlinarith [mul_pos (sub_pos.mpr h2) hp]

/-- C8: the turn intensity `Math.pow(turnAngle / 60, 1.5) * 0.05` of the
turn branch is a power law of exponent 1.5 > 1 (strictly superlinear:
doubling the angle more than doubles the power) and strictly monotone:
for angles `0 < a < b` the produced turn value for `b` is strictly larger
in magnitude, for either direction; the sign of the stored `turn` follows
the command's direction (negative for `'left'`, positive for `'right'`). -/
theorem turn_power_law_monotone (d : TurnDir) (a b : ℝ) (ha : 0 < a) (hab : a < b) :
    |clientTurnValue d a| < |clientTurnValue d b| ∧
    2 * turnPower a < turnPower (2 * a) ∧
    clientTurnValue TurnDir.left a < 0 ∧ 0 < clientTurnValue TurnDir.right a := by
  have hb : 0 < b := lt_trans ha hab
  have hpa := turnPower_pos ha
  have hpb := turnPower_pos hb
  have hlt := turnPower_strictMonoOn ha hab
  refine ⟨?_, turnPower_superlinear ha, ?_, hpa⟩
  · cases d with
    | left =>
      show |(-turnPower a)| < |(-turnPower b)|
      rw [abs_neg, abs_neg, abs_of_pos hpa, abs_of_pos hpb]
      exact hlt
    | right =>
      show |turnPower a| < |turnPower b|
      rw [abs_of_pos hpa, abs_of_pos hpb]
      exact hlt
  · show -turnPower a < 0
    linarith

/-- C8 witness: the power law at the concrete angles 10 and 20 degrees,
turning right. -/
theorem turn_power_law_monotone_witness :
    |clientTurnValue TurnDir.right 10| < |clientTurnValue TurnDir.right 20| ∧
    2 * turnPower 10 < turnPower (2 * 10) ∧
    clientTurnValue TurnDir.left 10 < 0 ∧ 0 < clientTurnValue TurnDir.right 10 :=
  turn_power_law_monotone TurnDir.right 10 20 (by norm_num) (by norm_num)

end FlyBird
